import Mathlib

/-!
Verification development for the ViNetwork request-capture engine and modal
interaction state machine.

The definitions below are a shallow embedding of the TypeScript sources:
`StateManager`, `NetworkCapture` and `FilterManager` (core/FilterManager.ts
bundle), `KeyboardHandler` (core/KeyboardHandler.ts) and the data model of
types.ts.  JavaScript objects become Lean structures, in-place mutation
becomes explicit state passing, and reference identity of arrays (which the
source relies on for its memoization and its shallow `getState` copy) is
made explicit through numeric tags drawn from an allocation counter: two
values carry the same tag exactly when the JavaScript program would hold the
same live array object.  The external `fuse.js` search and the host `URL`
parser are not part of the repository; operations that call them take the
corresponding function as an explicit parameter, so every theorem quantifies
over their behaviour.  Counters (`notifyCount`, `fuseBuildCount`) record how
often `notifyListeners` and `createFuseIndex` are invoked; they are the
observable trace of the notification and index-rebuild events the claims
speak about.
-/

namespace ViNetwork

/-- Resource types, from the `ResourceType` enumeration of types.ts. -/
inductive ResourceType where
  | xhr | fetch | doc | css | js | img | font | media | manifest | socket | wasm | other
deriving DecidableEq, Repr

/-- Modal modes, from the `AppMode` enumeration of types.ts. -/
inductive AppMode where
  | normal | search | filter | inspect | copy
deriving DecidableEq, Repr

/-- Inspect-mode focus areas, from the `InspectFocus` enumeration of types.ts. -/
inductive InspectFocus where
  | headers | response | preview
deriving DecidableEq, Repr

/-- The `previewTab` field of `AppState` (a string union in the source). -/
inductive PreviewTab where
  | headers | response | preview
deriving DecidableEq, Repr

/-- One captured network exchange, from the `NetworkRequest` interface of
types.ts.  The `method` field is a plain string because the source merely
casts the wire string to its `RequestMethod` enum without validation; header
records become association lists.  The lazily attached `responseBody` lives
in the `NetworkCapture` body cache and is not needed by any claim, so the
record carries the fields the capture pipeline writes. -/
structure NetworkRequest where
  id : String
  url : String
  name : String
  method : String
  type : ResourceType
  status : Nat
  statusText : String
  timestamp : Int
  duration : Int
  size : Nat
  requestHeaders : List (String × String)
  responseHeaders : List (String × String)
  requestBody : Option String
  initiator : Option String
deriving DecidableEq, Repr

/-- Active filters, from the `FilterState` interface of types.ts.  The
JavaScript `Set` keeps insertion order and no duplicates; it is modelled as
a duplicate-free list, with `size` becoming `List.length`. -/
structure FilterState where
  types : List ResourceType
  statusCodes : List Nat
deriving DecidableEq, Repr

/-- One flattened JSON tree row, from the `JsonNode` interface of types.ts.
No claim inspects node contents, so the untyped `value` field is kept as its
rendered string form. -/
structure JsonNode where
  key : String
  value : String
  type : String
  path : String
  isExpanded : Bool
  level : Nat
deriving DecidableEq, Repr

/-- The single authoritative application state, from the `AppState`
interface of types.ts.  `jsonExpanded` (a `Map`) becomes an association
list. -/
structure AppState where
  mode : AppMode
  requests : List NetworkRequest
  selectedIndex : Nat
  searchQuery : String
  filters : FilterState
  jsonExpanded : List (String × Bool)
  previewTab : PreviewTab
  filterSelectedIndex : Nat
  filterOrder : List String
  inspectFocus : InspectFocus
  inspectScrollPosition : Int
  inspectSearchQuery : String
  inspectSearchMatches : List Nat
  inspectSearchIndex : Int
  headersSelectedIndex : Nat
  isInspectExpanded : Bool
  jsonSelectedIndex : Nat
  flattenedJsonNodes : List JsonNode
deriving DecidableEq, Repr

/-- A `Partial<AppState>` argument of `StateManager.setState`: every field
optional, absent fields not copied by `Object.assign`. -/
structure PartialState where
  mode : Option AppMode := none
  requests : Option (List NetworkRequest) := none
  selectedIndex : Option Nat := none
  searchQuery : Option String := none
  filters : Option FilterState := none
  jsonExpanded : Option (List (String × Bool)) := none
  previewTab : Option PreviewTab := none
  filterSelectedIndex : Option Nat := none
  filterOrder : Option (List String) := none
  inspectFocus : Option InspectFocus := none
  inspectScrollPosition : Option Int := none
  inspectSearchQuery : Option String := none
  inspectSearchMatches : Option (List Nat) := none
  inspectSearchIndex : Option Int := none
  headersSelectedIndex : Option Nat := none
  isInspectExpanded : Option Bool := none
  jsonSelectedIndex : Option Nat := none
  flattenedJsonNodes : Option (List JsonNode) := none
deriving DecidableEq, Repr

/-- The memoization cell `filteredRequestsCache` of `StateManager`.  The
cached array reference is stored together with its identity tag. -/
structure FilterCache where
  requests : Option (Nat × List NetworkRequest)
  lastRequestsLength : Nat
  lastSearchQuery : String
  lastMethodsSize : Nat
  lastTypesSize : Nat
deriving DecidableEq, Repr

/-- The `StateManager` instance.  `requestsTag` is the identity of the live
`state.requests` array; `nextTag` feeds fresh identities for every array the
JavaScript program would allocate.  `fuseIndex` holds the request list the
Fuse index was built from, `fuseBuildCount` counts `createFuseIndex` calls,
and `notifyCount` counts `notifyListeners` calls. -/
structure Store where
  state : AppState
  requestsTag : Nat
  cache : FilterCache
  fuseIndex : Option (List NetworkRequest)
  lastFuseIndexLength : Nat
  fuseBuildCount : Nat
  nextTag : Nat
  notifyCount : Nat
  pendingUpdates : List PartialState
deriving DecidableEq, Repr

/-- The initial state built by the `StateManager` constructor. -/
def initialState : AppState where
  mode := AppMode.normal
  requests := []
  selectedIndex := 0
  searchQuery := ""
  filters := { types := [], statusCodes := [] }
  jsonExpanded := []
  previewTab := PreviewTab.headers
  filterSelectedIndex := 0
  filterOrder := ["fetch/xhr", "document", "stylesheet", "script", "font", "image",
    "media", "manifest", "websocket", "wasm", "other"]
  inspectFocus := InspectFocus.headers
  inspectScrollPosition := 0
  inspectSearchQuery := ""
  inspectSearchMatches := []
  inspectSearchIndex := 0
  headersSelectedIndex := 0
  isInspectExpanded := false
  jsonSelectedIndex := 0
  flattenedJsonNodes := []

/-- A freshly constructed `StateManager`. -/
def initialStore : Store where
  state := initialState
  requestsTag := 0
  cache := { requests := none, lastRequestsLength := 0, lastSearchQuery := "",
             lastMethodsSize := 0, lastTypesSize := 0 }
  fuseIndex := none
  lastFuseIndexLength := 0
  fuseBuildCount := 0
  nextTag := 1
  notifyCount := 0
  pendingUpdates := []

/-- Eager choice between two options, preferring the first: the effect of
`Object.assign` on a single property where the first argument is the later
(overriding) update. -/
def optOr {α : Type} (a b : Option α) : Option α :=
  match a with
  | some v => some v
  | none => b

/-- Merge of two queued partial updates, the second argument being the later
call: per property, `Object.assign` keeps the later value when present. -/
def mergeTwo (p q : PartialState) : PartialState where
  mode := optOr q.mode p.mode
  requests := optOr q.requests p.requests
  selectedIndex := optOr q.selectedIndex p.selectedIndex
  searchQuery := optOr q.searchQuery p.searchQuery
  filters := optOr q.filters p.filters
  jsonExpanded := optOr q.jsonExpanded p.jsonExpanded
  previewTab := optOr q.previewTab p.previewTab
  filterSelectedIndex := optOr q.filterSelectedIndex p.filterSelectedIndex
  filterOrder := optOr q.filterOrder p.filterOrder
  inspectFocus := optOr q.inspectFocus p.inspectFocus
  inspectScrollPosition := optOr q.inspectScrollPosition p.inspectScrollPosition
  inspectSearchQuery := optOr q.inspectSearchQuery p.inspectSearchQuery
  inspectSearchMatches := optOr q.inspectSearchMatches p.inspectSearchMatches
  inspectSearchIndex := optOr q.inspectSearchIndex p.inspectSearchIndex
  headersSelectedIndex := optOr q.headersSelectedIndex p.headersSelectedIndex
  isInspectExpanded := optOr q.isInspectExpanded p.isInspectExpanded
  jsonSelectedIndex := optOr q.jsonSelectedIndex p.jsonSelectedIndex
  flattenedJsonNodes := optOr q.flattenedJsonNodes p.flattenedJsonNodes

/-- The fold `Object.assign(\x7b\x7d, ...this.pendingUpdates)` over the whole
queue, in call order. -/
def mergeBatch (batch : List PartialState) : PartialState :=
  batch.foldl mergeTwo {}

/-- Spread `\x7b ...this.state, ...merged \x7d`: every property present in the
merged update overrides the current state. -/
def applyPartial (st : AppState) (m : PartialState) : AppState where
  mode := m.mode.getD st.mode
  requests := m.requests.getD st.requests
  selectedIndex := m.selectedIndex.getD st.selectedIndex
  searchQuery := m.searchQuery.getD st.searchQuery
  filters := m.filters.getD st.filters
  jsonExpanded := m.jsonExpanded.getD st.jsonExpanded
  previewTab := m.previewTab.getD st.previewTab
  filterSelectedIndex := m.filterSelectedIndex.getD st.filterSelectedIndex
  filterOrder := m.filterOrder.getD st.filterOrder
  inspectFocus := m.inspectFocus.getD st.inspectFocus
  inspectScrollPosition := m.inspectScrollPosition.getD st.inspectScrollPosition
  inspectSearchQuery := m.inspectSearchQuery.getD st.inspectSearchQuery
  inspectSearchMatches := m.inspectSearchMatches.getD st.inspectSearchMatches
  inspectSearchIndex := m.inspectSearchIndex.getD st.inspectSearchIndex
  headersSelectedIndex := m.headersSelectedIndex.getD st.headersSelectedIndex
  isInspectExpanded := m.isInspectExpanded.getD st.isInspectExpanded
  jsonSelectedIndex := m.jsonSelectedIndex.getD st.jsonSelectedIndex
  flattenedJsonNodes := m.flattenedJsonNodes.getD st.flattenedJsonNodes

/-- Model of `StateManager.setState`: push the partial update on the queue.  The
`requestAnimationFrame` callback itself is `flushBatch` below. -/
def setState (s : Store) (p : PartialState) : Store :=
  { s with pendingUpdates := s.pendingUpdates ++ [p] }

/-- The `requestAnimationFrame` callback scheduled by `setState`: merge the
queued updates, assign the merged record over the state in one step, clear
the filter cache when the batch names `searchQuery` or `filters`, reset the
selection when the batch names `searchQuery` but not `selectedIndex`, notify
subscribers once, and empty the queue.  A `requests` property carries a new
array object, hence a fresh identity tag. -/
def flushBatch (s : Store) : Store :=
  let m := mergeBatch s.pendingUpdates
  let st1 := applyPartial s.state m
  let st2 := if m.searchQuery.isSome && m.selectedIndex.isNone then
      { st1 with selectedIndex := 0 } else st1
  let tag := if m.requests.isSome then s.nextTag else s.requestsTag
  let nt := if m.requests.isSome then s.nextTag + 1 else s.nextTag
  let cache := if m.searchQuery.isSome || m.filters.isSome then
      { s.cache with requests := none } else s.cache
  let fidx := if m.searchQuery.isSome || m.filters.isSome then none else s.fuseIndex
  { s with state := st2, requestsTag := tag, nextTag := nt, cache := cache,
           fuseIndex := fidx, pendingUpdates := [],
           notifyCount := s.notifyCount + 1 }

/-- One `setState` call followed by its animation-frame flush, the shape of
every keyboard-handler mutation (each key press performs at most one
`setState` in the paths modelled here). -/
def setStateAndFlush (s : Store) (p : PartialState) : Store :=
  flushBatch (setState s p)

/-- Model of `StateManager.addRequest`: push the request on the live array, evict the
oldest overflow past `MAX_REQUESTS = 1000` with `splice(0, toRemove)`, shift
the selection down by the eviction count (to 0 when it pointed inside the
evicted prefix), and notify synchronously.  The push and splice mutate the
array in place, so its identity tag is unchanged and the pending `setState`
queue is untouched. -/
def addRequest (s : Store) (r : NetworkRequest) : Store :=
  let reqs := s.state.requests ++ [r]
  if reqs.length > 1000 then
    let toRemove := reqs.length - 1000
    { s with
      state := { s.state with
        requests := reqs.drop toRemove,
        selectedIndex := if s.state.selectedIndex < toRemove then 0
          else s.state.selectedIndex - toRemove },
      notifyCount := s.notifyCount + 1 }
  else
    { s with state := { s.state with requests := reqs },
             notifyCount := s.notifyCount + 1 }

/-- Model of `StateManager.clearRequests`: assign a brand-new empty array (fresh
identity tag), reset the selection, notify synchronously. -/
def clearRequests (s : Store) : Store :=
  { s with
    state := { s.state with requests := [], selectedIndex := 0 },
    requestsTag := s.nextTag,
    nextTag := s.nextTag + 1,
    notifyCount := s.notifyCount + 1 }

/-- Model of `StateManager.deleteRequest`: `splice(index, 1)` in place, clamp the
selection against the remaining full collection, notify synchronously. -/
def deleteRequest (s : Store) (i : Nat) : Store :=
  let reqs := s.state.requests.eraseIdx i
  { s with
    state := { s.state with
      requests := reqs,
      selectedIndex := if s.state.selectedIndex ≥ reqs.length then reqs.length - 1
        else s.state.selectedIndex },
    notifyCount := s.notifyCount + 1 }

/-- The output of `StateManager.getFilteredRequests`: the returned array
(with its identity tag) and the manager after its cache updates. -/
structure GetFilteredOut where
  resultTag : Nat
  result : List NetworkRequest
  store : Store
deriving DecidableEq, Repr

/-- The `cacheValid` test at the top of `getFilteredRequests`: a cached
array exists and the recorded request count, search query and filter-set
size all still match the current state. -/
def filterCacheValid (s : Store) : Bool :=
  s.cache.requests.isSome
    && (s.cache.lastRequestsLength == s.state.requests.length)
    && (s.cache.lastSearchQuery == s.state.searchQuery)
    && (s.cache.lastTypesSize == s.state.filters.types.length)

/-- The recomputation path of `getFilteredRequests`, on a cache miss:
rebuild the Fuse index when absent or built for a different request count,
fuzzy-search when a query is present (a fresh array from `.map`), then
intersect with the filter set when non-empty (a fresh array from
`.filter`), and store the result with its inputs in the cache.  `fuse`
stands for `createFuseIndex(docs).search(query).map(r => r.item)`, the
behaviour of the external fuse.js library over the indexed documents. -/
def computeFiltered (fuse : List NetworkRequest → String → List NetworkRequest)
    (s : Store) : GetFilteredOut :=
  let st := s.state
  let rebuild : Bool := s.fuseIndex.isNone || (s.lastFuseIndexLength != st.requests.length)
  let idx := if rebuild then st.requests else s.fuseIndex.getD []
  let fcount := if rebuild then s.fuseBuildCount + 1 else s.fuseBuildCount
  let lastLen := if rebuild then st.requests.length else s.lastFuseIndexLength
  let baseTag := if st.searchQuery = "" then s.requestsTag else s.nextTag
  let base := if st.searchQuery = "" then st.requests else fuse idx st.searchQuery
  let nt1 := if st.searchQuery = "" then s.nextTag else s.nextTag + 1
  let resTag := if st.filters.types.length = 0 then baseTag else nt1
  let res := if st.filters.types.length = 0 then base
    else base.filter (fun r => st.filters.types.contains r.type)
  let nt2 := if st.filters.types.length = 0 then nt1 else nt1 + 1
  { resultTag := resTag, result := res,
    store := { s with
      fuseIndex := some idx, lastFuseIndexLength := lastLen, fuseBuildCount := fcount,
      nextTag := nt2,
      cache := { requests := some (resTag, res),
                 lastRequestsLength := st.requests.length,
                 lastSearchQuery := st.searchQuery,
                 lastMethodsSize := 0,
                 lastTypesSize := st.filters.types.length } } }

/-- Model of `StateManager.getFilteredRequests`: serve the cached array unchanged on
a cache hit, recompute otherwise. -/
def getFilteredRequests (fuse : List NetworkRequest → String → List NetworkRequest)
    (s : Store) : GetFilteredOut :=
  if filterCacheValid s then
    { resultTag := (s.cache.requests.getD (0, [])).1,
      result := (s.cache.requests.getD (0, [])).2, store := s }
  else computeFiltered fuse s

/-- Modelled from the spec: the filtered view as a pure function of
(requests, searchQuery, filter set) — fuzzy matching over the current
requests when a query is present, else identity, then resource-type
filtering when the filter set is non-empty.  Stated from the spec's words
for comparison with `getFilteredRequests`. -/
def pureFilteredRequests (fuse : List NetworkRequest → String → List NetworkRequest)
    (st : AppState) : List NetworkRequest :=
  let base := if st.searchQuery = "" then st.requests else fuse st.requests st.searchQuery
  if st.filters.types.length = 0 then base
  else base.filter (fun r => st.filters.types.contains r.type)

/-- The shallow snapshot `\x7b ...this.state \x7d` returned by
`StateManager.getState`: a fresh top-level record whose nested `requests`
array is the very array the store owns, witnessed by the shared identity
tag. -/
structure Snapshot where
  data : AppState
  requestsRef : Nat
deriving DecidableEq, Repr

/-- Model of `StateManager.getState`. -/
def getState (s : Store) : Snapshot :=
  { data := s.state, requestsRef := s.requestsTag }

/-- JavaScript `arrayRef.push(r)` performed through a reference a caller
obtained from a snapshot: the store's collection changes exactly when the
reference is the store's live array (same identity tag); a push on any
other array leaves the store untouched. -/
def pushThroughRef (s : Store) (ref : Nat) (r : NetworkRequest) : Store :=
  if ref = s.requestsTag then
    { s with state := { s.state with requests := s.state.requests ++ [r] } }
  else s

/-- JavaScript `Set.prototype.add` on the duplicate-free insertion-ordered
filter set. -/
def setAdd (l : List ResourceType) (t : ResourceType) : List ResourceType :=
  if l.contains t then l else l ++ [t]

/-- The single-resource-type branch of `FilterManager.handleCheckboxChange`
(a checkbox other than `all` or the combined `fetch/xhr`): mutate the
store's own `filters.types` set through the shallow `getState` snapshot,
then `setState(\x7b filters \x7d)` and let the animation frame flush it. -/
def toggleSingleTypeFilter (s : Store) (t : ResourceType) (checked : Bool) : Store :=
  let newTypes := if checked then setAdd s.state.filters.types t
    else s.state.filters.types.erase t
  let s1 := { s with state := { s.state with
    filters := { s.state.filters with types := newTypes } } }
  setStateAndFlush s1 { filters := some s1.state.filters }

/-- The `KeyboardHandler` together with its multi-key sequence buffer
(`keySequence`); the quiet-period timers are driven by the separate
`sequenceTimeoutFire` step rather than wall-clock time. -/
structure UI where
  store : Store
  keySequence : String
deriving DecidableEq, Repr

/-- Expiry of the sequence timeout: the buffer is cleared. -/
def sequenceTimeoutFire (u : UI) : UI :=
  { u with keySequence := "" }

/-- Model of `KeyboardHandler.moveSelection`: clamp the moved selection into
`[0, maxLength - 1]` (or 0 when the list is empty). -/
def moveSelectionIndex (sel : Nat) (delta : Int) (len : Nat) : Nat :=
  (max 0 (min ((len : Int) - 1) ((sel : Int) + delta))).toNat

/-- Model of `KeyboardHandler.handleNormalMode` for the keys that reach the store:
j/k movement over the filtered view, G to the last row, `/` into SEARCH
with a cleared query, f into FILTER, Enter into INSPECT at the focus of the
active preview tab, c into COPY, and the g/d sequence buffers (gg jumps to
the top; dd deletes the selected request; a `dr` buffer would clear all).
The handler fetches the filtered view first, exactly as the source does on
every key. -/
def handleNormalMode (fuse : List NetworkRequest → String → List NetworkRequest)
    (key : String) (u : UI) : UI :=
  let out := getFilteredRequests fuse u.store
  let s := out.store
  let len := out.result.length
  if key = "j" then
    let p : PartialState :=
      { selectedIndex := some (moveSelectionIndex s.state.selectedIndex 1 len) }
    { u with store := setStateAndFlush s p }
  else if key = "k" then
    let p : PartialState :=
      { selectedIndex := some (moveSelectionIndex s.state.selectedIndex (-1) len) }
    { u with store := setStateAndFlush s p }
  else if key = "G" then
    { u with store := setStateAndFlush s { selectedIndex := some (len - 1) } }
  else if key = "/" then
    let p : PartialState := { mode := some AppMode.search, searchQuery := some "" }
    { u with store := setStateAndFlush s p }
  else if key = "f" then
    { u with store := setStateAndFlush s { mode := some AppMode.filter } }
  else if key = "Enter" then
    let focus := match s.state.previewTab with
      | PreviewTab.headers => InspectFocus.headers
      | PreviewTab.response => InspectFocus.response
      | PreviewTab.preview => InspectFocus.preview
    let p : PartialState := { mode := some AppMode.inspect, inspectFocus := some focus }
    { u with store := setStateAndFlush s p }
  else if key = "c" then
    { u with store := setStateAndFlush s { mode := some AppMode.copy } }
  else if key = "g" then
    let seq := u.keySequence ++ "g"
    if seq = "gg" then
      { store := setStateAndFlush s { selectedIndex := some 0 }, keySequence := "" }
    else { store := s, keySequence := seq }
  else if key = "d" then
    let seq := u.keySequence ++ "d"
    if seq = "dd" then
      { store := deleteRequest s s.state.selectedIndex, keySequence := "" }
    else if seq = "dr" then
      { store := clearRequests s, keySequence := "" }
    else { store := s, keySequence := seq }
  else { u with store := s }

/-- Model of `KeyboardHandler.handleSearchMode`: q leaves for NORMAL clearing the
query, Enter applies the search and leaves for NORMAL; every other key is
typed into the search input. -/
def handleSearchMode (key : String) (s : Store) : Store :=
  if key = "q" then
    setStateAndFlush s { mode := some AppMode.normal, searchQuery := some "" }
  else if key = "Enter" then
    setStateAndFlush s { mode := some AppMode.normal }
  else s

/-- Model of `KeyboardHandler.handleFilterMode`, the store-visible `q` exit (the
h/l/Enter keys delegate to the `FilterManager` collaborator). -/
def handleFilterMode (key : String) (s : Store) : Store :=
  if key = "q" then setStateAndFlush s { mode := some AppMode.normal }
  else s

/-- Model of `KeyboardHandler.handleInspectMode`, the store-visible branches: q
leaves for NORMAL resetting the focus to HEADERS, the in-panel search
state, the headers selection and the full-width flag; z toggles the
full-width view.  The remaining branches scroll or navigate DOM
collaborators. -/
def handleInspectMode (key : String) (s : Store) : Store :=
  if key = "q" then
    setStateAndFlush s
      { mode := some AppMode.normal,
        inspectFocus := some InspectFocus.headers,
        inspectSearchQuery := some "",
        inspectSearchMatches := some [],
        inspectSearchIndex := some 0,
        headersSelectedIndex := some 0,
        isInspectExpanded := some false }
  else if key = "z" then
    setStateAndFlush s { isInspectExpanded := some (!s.state.isInspectExpanded) }
  else s

/-- Model of `KeyboardHandler.handleCopyMode` with the copy-menu collaborator
installed: q and Escape leave for NORMAL; h/l/Enter drive the menu. -/
def handleCopyMode (key : String) (s : Store) : Store :=
  if key = "q" || key = "Escape" then
    setStateAndFlush s { mode := some AppMode.normal }
  else s

/-- Model of `KeyboardHandler.handleKeyDown`: route the key to the handler of the
current mode. -/
def pressKey (fuse : List NetworkRequest → String → List NetworkRequest)
    (key : String) (u : UI) : UI :=
  match u.store.state.mode with
  | AppMode.normal => handleNormalMode fuse key u
  | AppMode.search => { u with store := handleSearchMode key u.store }
  | AppMode.filter => { u with store := handleFilterMode key u.store }
  | AppMode.inspect => { u with store := handleInspectMode key u.store }
  | AppMode.copy => { u with store := handleCopyMode key u.store }

/-- The payload `handleRequestWillBeSent` reads from a
`Network.requestWillBeSent` debugger event: the raw Chrome resource type
string, the originating frame, and the request data. -/
structure InitiatedParams where
  requestId : String
  frameId : String
  rawType : String
  url : String
  method : String
  timestamp : Int
  headers : List (String × String)
  postData : Option String
  initiator : Option String
deriving DecidableEq, Repr

/-- Model of `NetworkCapture.mapResourceType`: the Chrome-type-to-enum table with
`OTHER` as default. -/
def mapResourceType (t : String) : ResourceType :=
  if t = "XHR" then ResourceType.xhr
  else if t = "Fetch" then ResourceType.fetch
  else if t = "Document" then ResourceType.doc
  else if t = "Stylesheet" then ResourceType.css
  else if t = "Script" then ResourceType.js
  else if t = "Image" then ResourceType.img
  else if t = "Font" then ResourceType.font
  else if t = "Media" then ResourceType.media
  else if t = "Manifest" then ResourceType.manifest
  else if t = "WebSocket" then ResourceType.socket
  else if t = "WebAssembly" then ResourceType.wasm
  else ResourceType.other

/-- The fresh `NetworkRequest` record built by `handleRequestWillBeSent`:
placeholder status and size, name derived from the URL.  `en` stands for
`extractName`, whose body delegates to the host `URL` parser and is
therefore passed in as a function. -/
def mkRequest (en : String → String) (p : InitiatedParams) : NetworkRequest where
  id := p.requestId
  url := p.url
  name := en p.url
  method := p.method
  type := mapResourceType p.rawType
  status := 0
  statusText := "Pending"
  timestamp := p.timestamp * 1000
  duration := 0
  size := 0
  requestHeaders := p.headers
  responseHeaders := []
  requestBody := p.postData
  initiator := p.initiator

/-- Model of `Map.prototype.set` on an association list keyed by request id. -/
def assocSet {α : Type} (m : List (String × α)) (k : String) (v : α) :
    List (String × α) :=
  if m.any (fun kv => kv.1 == k) then
    m.map (fun kv => if kv.1 == k then (k, v) else kv)
  else m ++ [(k, v)]

/-- The `NetworkCapture` instance: its `StateManager`, the in-flight
`pendingRequests` map, the lazy `responseBodyCache` (body values kept as
their raw text), the `fetchingBodies` id set, and the tracked main frame. -/
structure Capture where
  store : Store
  pendingRequests : List (String × NetworkRequest)
  responseBodyCache : List (String × String)
  fetchingBodies : List String
  mainFrameId : Option String
deriving DecidableEq, Repr

/-- A freshly constructed `NetworkCapture`. -/
def initialCapture : Capture where
  store := initialStore
  pendingRequests := []
  responseBodyCache := []
  fetchingBodies := []
  mainFrameId := none

/-- Model of `NetworkCapture.clearCaches`: empty the three in-flight maps. -/
def clearCaches (c : Capture) : Capture :=
  { c with pendingRequests := [], responseBodyCache := [], fetchingBodies := [] }

/-- Model of `NetworkCapture.handleRequestWillBeSent`: a `Document` event whose frame
is the tracked main frame (or arriving while none is tracked) records the
frame as the new main frame and clears the caches and all requests before
insertion; every event then builds the fresh request, adds it to the store,
and registers it in `pendingRequests`.  The message-banner DOM bookkeeping
at the top of the source handler touches no store state and is omitted. -/
def handleRequestWillBeSent (en : String → String) (p : InitiatedParams)
    (c : Capture) : Capture :=
  let c1 :=
    if p.rawType = "Document"
        && (c.mainFrameId.isNone || c.mainFrameId == some p.frameId) then
      let cc := clearCaches c
      { cc with mainFrameId := some p.frameId, store := clearRequests cc.store }
    else c
  let req := mkRequest en p
  { c1 with store := addRequest c1.store req,
            pendingRequests := assocSet c1.pendingRequests p.requestId req }

/-- A burst of initiated events processed in arrival order. -/
def runInitiated (en : String → String) (ps : List InitiatedParams)
    (c : Capture) : Capture :=
  ps.foldl (fun acc p => handleRequestWillBeSent en p acc) c

/-- One store-level operation of the capture pipeline and the keyboard
commands: a synchronous `addRequest` / `deleteRequest` / `clearRequests`
mutation, or a scheduling tick in which the listed `setState` calls are
queued and then flushed by the animation frame. -/
inductive StoreOp where
  | add (r : NetworkRequest)
  | delete (i : Nat)
  | clear
  | flush (batch : List PartialState)
deriving Repr

/-- The partial updates the capture pipeline feeds through `setState` carry
request arrays of at most the cap (`handleLoadingFinished` and
`handleLoadingFailed` pass a spread copy of the current, already-capped
collection). -/
def BoundedOp : StoreOp → Prop
  | StoreOp.flush batch => ∀ p ∈ batch, ∀ rs, p.requests = some rs → rs.length ≤ 1000
  | _ => True

/-- Interpretation of one operation. -/
def applyOp (s : Store) (op : StoreOp) : Store :=
  match op with
  | StoreOp.add r => addRequest s r
  | StoreOp.delete i => deleteRequest s i
  | StoreOp.clear => clearRequests s
  | StoreOp.flush batch => flushBatch { s with pendingUpdates := batch }

/-- A whole operation sequence run from the freshly constructed store. -/
def applyOps (ops : List StoreOp) : Store :=
  ops.foldl applyOp initialStore

/-- A trivial instantiation of the external fuse.js search, used to run the
model on concrete inputs where the claim at hand does not depend on the
search behaviour. -/
def fuse0 : List NetworkRequest → String → List NetworkRequest := fun _ _ => []

/-- A trivial instantiation of the URL-derived name extraction. -/
def en0 : String → String := fun _ => ""

/-- A sample request record for concrete runs. -/
def mkReq (i : String) (t : ResourceType) : NetworkRequest where
  id := i
  url := "https://e.com/" ++ i
  name := i
  method := "GET"
  type := t
  status := 0
  statusText := "Pending"
  timestamp := 0
  duration := 0
  size := 0
  requestHeaders := []
  responseHeaders := []
  requestBody := none
  initiator := none

/-- A sample xhr request. -/
def rXhr : NetworkRequest := mkReq "a" ResourceType.xhr

/-- A sample script request. -/
def rJs : NetworkRequest := mkReq "b" ResourceType.js

/-- The later-caller-wins value of one property over a whole `setState`
batch, stated independently of the fold that implements the merge: the
first defined occurrence scanning the queue from its end. -/
def lastSet {α : Type} (g : PartialState → Option α) (batch : List PartialState) :
    Option α :=
  batch.reverse.findSome? g

theorem optOr_none {α : Type} (a : Option α) : optOr a none = a := by
  cases a <;> rfl

theorem optOr_assoc {α : Type} (a b c : Option α) :
    optOr (optOr a b) c = optOr a (optOr b c) := by
  cases a <;> rfl

theorem findSome?_append_optOr {α β : Type} (l1 l2 : List α) (f : α → Option β) :
    (l1 ++ l2).findSome? f = optOr (l1.findSome? f) (l2.findSome? f) := by
  induction l1 with
  | nil => simp [optOr]
  | cons a l ih =>
    simp only [List.cons_append, List.findSome?_cons]
    cases f a <;> simp [optOr, ih]

theorem findSome?_singleton {α β : Type} (a : α) (f : α → Option β) :
    [a].findSome? f = f a := by
  simp only [List.findSome?_cons]
  cases f a <;> simp

theorem lastSet_cons {α : Type} (g : PartialState → Option α) (b : PartialState)
    (bs : List PartialState) : lastSet g (b :: bs) = optOr (lastSet g bs) (g b) := by
  simp [lastSet, List.reverse_cons, findSome?_append_optOr, findSome?_singleton]

theorem exists_of_findSome? {α β : Type} (l : List α) (f : α → Option β) (b : β)
    (h : l.findSome? f = some b) : ∃ a ∈ l, f a = some b := by
  induction l with
  | nil => simp [List.findSome?] at h
  | cons a l ih =>
    rw [List.findSome?_cons] at h
    cases hfa : f a with
    | some v => rw [hfa] at h; exact ⟨a, List.mem_cons_self a l, hfa.trans h⟩
    | none =>
      rw [hfa] at h
      obtain ⟨x, hx, hfx⟩ := ih h
      exact ⟨x, List.mem_cons_of_mem a hx, hfx⟩

theorem foldl_mergeTwo_field {α : Type} (g : PartialState → Option α)
    (hg : ∀ p q, g (mergeTwo p q) = optOr (g q) (g p)) (batch : List PartialState)
    (init : PartialState) :
    g (batch.foldl mergeTwo init) = optOr (lastSet g batch) (g init) := by
  induction batch generalizing init with
  | nil => simp [lastSet, optOr]
  | cons b bs ih =>
    simp only [List.foldl_cons]
    rw [ih, hg, lastSet_cons, optOr_assoc]

theorem lastSet_mem {α : Type} (g : PartialState → Option α)
    (batch : List PartialState) (v : α) (h : lastSet g batch = some v) :
    ∃ p ∈ batch, g p = some v := by
  obtain ⟨p, hp, hgp⟩ := exists_of_findSome? batch.reverse g v h
  exact ⟨p, List.mem_reverse.mp hp, hgp⟩

theorem mergeBatch_requests (batch : List PartialState) :
    (mergeBatch batch).requests = lastSet (fun p => p.requests) batch := by
  have h := foldl_mergeTwo_field (fun p => p.requests) (fun _ _ => rfl) batch {}
  simpa [mergeBatch, optOr_none] using h

theorem flushBatch_requests (s : Store) :
    (flushBatch s).state.requests
      = ((mergeBatch s.pendingUpdates).requests.getD s.state.requests) := by
  simp only [flushBatch]
  split <;> rfl

/-- The three `addRequest` facts behind claim C1, stated over arbitrary
stores: the surviving collection is the suffix of old-plus-new past the
overflow (oldest dropped first), its size is capped at 1000, and the
selection shifts down by the eviction count with truncation at 0. -/
theorem addRequest_requests_eq (s : Store) (r : NetworkRequest) :
    (addRequest s r).state.requests
      = (s.state.requests ++ [r]).drop (s.state.requests.length + 1 - 1000) := by
  simp only [addRequest]
  split
  · simp [List.length_append]
  · rename_i h
    have : s.state.requests.length + 1 - 1000 = 0 := by
      simp only [List.length_append, List.length_singleton] at h
      omega
    simp [this]

theorem addRequest_length (s : Store) (r : NetworkRequest) :
    (addRequest s r).state.requests.length
      = min (s.state.requests.length + 1) 1000 := by
  rw [addRequest_requests_eq, List.length_drop]
  simp only [List.length_append, List.length_singleton]
  omega

theorem addRequest_selectedIndex (s : Store) (r : NetworkRequest) :
    (addRequest s r).state.selectedIndex
      = s.state.selectedIndex - (s.state.requests.length + 1 - 1000) := by
  simp only [addRequest]
  split
  · rename_i h
    simp only [List.length_append, List.length_singleton] at h ⊢
    split <;> omega
  · rename_i h
    simp only [List.length_append, List.length_singleton] at h
    have : s.state.requests.length + 1 - 1000 = 0 := by omega
    simp [this]

theorem applyOp_preserves_cap (s : Store) (op : StoreOp)
    (h : s.state.requests.length ≤ 1000) (hb : BoundedOp op) :
    (applyOp s op).state.requests.length ≤ 1000 := by
  cases op with
  | add r =>
    simp only [applyOp]
    rw [addRequest_length]
    omega
  | delete i =>
    simp only [applyOp, deleteRequest]
    calc (s.state.requests.eraseIdx i).length ≤ s.state.requests.length :=
        List.length_eraseIdx_le _ _
      _ ≤ 1000 := h
  | clear => simp [applyOp, clearRequests]
  | flush batch =>
    simp only [applyOp]
    rw [flushBatch_requests]
    simp only
    cases hm : (mergeBatch batch).requests with
    | none => simpa using h
    | some rs =>
      rw [mergeBatch_requests] at hm
      obtain ⟨p, hp, hpr⟩ := lastSet_mem _ _ _ hm
      simpa using hb p hp rs hpr

theorem applyOps_cap_aux (ops : List StoreOp) (s : Store)
    (h : s.state.requests.length ≤ 1000) (hops : ∀ op ∈ ops, BoundedOp op) :
    (ops.foldl applyOp s).state.requests.length ≤ 1000 := by
  induction ops generalizing s with
  | nil => simpa using h
  | cons op ops ih =>
    simp only [List.foldl_cons]
    exact ih _ (applyOp_preserves_cap s op h (hops op (List.mem_cons_self op ops)))
      (fun o ho => hops o (List.mem_cons_of_mem op ho))

/-- Claim C1: over every sequence of store operations of the capture
pipeline (whose queued partial updates only ever carry request arrays that
are copies of the already-capped collection), the stored request count
never exceeds 1000; and every `addRequest` call evicts exactly the oldest
overflow in FIFO order — the surviving collection is the suffix of
old-plus-new past the overflow — while shifting `selectedIndex` down by the
eviction count, truncated at 0. -/
theorem c1_store_cap (ops : List StoreOp) (hops : ∀ op ∈ ops, BoundedOp op) :
    (applyOps ops).state.requests.length ≤ 1000
    ∧ (∀ (s : Store) (r : NetworkRequest),
        (addRequest s r).state.requests
            = (s.state.requests ++ [r]).drop (s.state.requests.length + 1 - 1000)
        ∧ (addRequest s r).state.requests.length
            = min (s.state.requests.length + 1) 1000
        ∧ (addRequest s r).state.selectedIndex
            = s.state.selectedIndex - (s.state.requests.length + 1 - 1000)) := by
  refine ⟨applyOps_cap_aux ops initialStore (by simp [initialStore, initialState]) hops,
    fun s r => ⟨addRequest_requests_eq s r, addRequest_length s r,
      addRequest_selectedIndex s r⟩⟩

/-- Witness for C1 at a concrete input: a single insertion into the fresh
store satisfies the operation-sequence hypothesis and the cap, and the
FIFO/rebase equations hold at a store already holding one request. -/
theorem c1_store_cap_witness :
    (applyOps [StoreOp.add rXhr]).state.requests.length ≤ 1000
    ∧ (addRequest (addRequest initialStore rXhr) rJs).state.requests
        = ((addRequest initialStore rXhr).state.requests ++ [rJs]).drop
            ((addRequest initialStore rXhr).state.requests.length + 1 - 1000) := by
  have h := c1_store_cap [StoreOp.add rXhr]
    (by intro op hop; simp at hop; subst hop; trivial)
  exact ⟨h.1, (h.2 (addRequest initialStore rXhr) rJs).1⟩

theorem mergeTwo_empty (m : PartialState) : mergeTwo {} m = m := by
  simp [mergeTwo, optOr_none]

theorem mergeBatch_singleton (m : PartialState) : mergeBatch [m] = m := by
  simp [mergeBatch, mergeTwo_empty]

theorem mergeBatch_field {α : Type} (g : PartialState → Option α)
    (hg : ∀ p q, g (mergeTwo p q) = optOr (g q) (g p))
    (h0 : g ({} : PartialState) = none) (batch : List PartialState) :
    g (mergeBatch batch) = lastSet g batch := by
  have h := foldl_mergeTwo_field g hg batch {}
  rw [h0, optOr_none] at h
  exact h

theorem flushBatch_congr (s : Store) (pu1 pu2 : List PartialState)
    (h : mergeBatch pu1 = mergeBatch pu2) :
    flushBatch { s with pendingUpdates := pu1 }
      = flushBatch { s with pendingUpdates := pu2 } := by
  simp only [flushBatch]
  rw [h]

/-- Claim C5: all `setState` calls queued within one scheduling tick behave
exactly like a single `setState` of their merged record (the whole batch is
applied in one atomic assignment), the merge is field-by-field
last-write-wins in call order (each merged property is the last one
assigned across the queue), and the flush notifies subscribers exactly once
for the whole batch, leaving the queue empty. -/
theorem c5_setState_batching (s : Store) (batch : List PartialState) :
    flushBatch { s with pendingUpdates := batch }
        = flushBatch { s with pendingUpdates := [mergeBatch batch] }
    ∧ (flushBatch { s with pendingUpdates := batch }).notifyCount = s.notifyCount + 1
    ∧ (flushBatch { s with pendingUpdates := batch }).pendingUpdates = []
    ∧ (mergeBatch batch).mode = lastSet (fun p => p.mode) batch
    ∧ (mergeBatch batch).requests = lastSet (fun p => p.requests) batch
    ∧ (mergeBatch batch).selectedIndex = lastSet (fun p => p.selectedIndex) batch
    ∧ (mergeBatch batch).searchQuery = lastSet (fun p => p.searchQuery) batch
    ∧ (mergeBatch batch).filters = lastSet (fun p => p.filters) batch
    ∧ (mergeBatch batch).jsonExpanded = lastSet (fun p => p.jsonExpanded) batch
    ∧ (mergeBatch batch).previewTab = lastSet (fun p => p.previewTab) batch
    ∧ (mergeBatch batch).filterSelectedIndex
        = lastSet (fun p => p.filterSelectedIndex) batch
    ∧ (mergeBatch batch).filterOrder = lastSet (fun p => p.filterOrder) batch
    ∧ (mergeBatch batch).inspectFocus = lastSet (fun p => p.inspectFocus) batch
    ∧ (mergeBatch batch).inspectScrollPosition
        = lastSet (fun p => p.inspectScrollPosition) batch
    ∧ (mergeBatch batch).inspectSearchQuery
        = lastSet (fun p => p.inspectSearchQuery) batch
    ∧ (mergeBatch batch).inspectSearchMatches
        = lastSet (fun p => p.inspectSearchMatches) batch
    ∧ (mergeBatch batch).inspectSearchIndex
        = lastSet (fun p => p.inspectSearchIndex) batch
    ∧ (mergeBatch batch).headersSelectedIndex
        = lastSet (fun p => p.headersSelectedIndex) batch
    ∧ (mergeBatch batch).isInspectExpanded
        = lastSet (fun p => p.isInspectExpanded) batch
    ∧ (mergeBatch batch).jsonSelectedIndex
        = lastSet (fun p => p.jsonSelectedIndex) batch
    ∧ (mergeBatch batch).flattenedJsonNodes
        = lastSet (fun p => p.flattenedJsonNodes) batch := by
  refine ⟨flushBatch_congr s batch [mergeBatch batch]
      (mergeBatch_singleton (mergeBatch batch)).symm, rfl, rfl,
    mergeBatch_field _ (fun _ _ => rfl) rfl batch,
    mergeBatch_field _ (fun _ _ => rfl) rfl batch,
    mergeBatch_field _ (fun _ _ => rfl) rfl batch,
    mergeBatch_field _ (fun _ _ => rfl) rfl batch,
    mergeBatch_field _ (fun _ _ => rfl) rfl batch,
    mergeBatch_field _ (fun _ _ => rfl) rfl batch,
    mergeBatch_field _ (fun _ _ => rfl) rfl batch,
    mergeBatch_field _ (fun _ _ => rfl) rfl batch,
    mergeBatch_field _ (fun _ _ => rfl) rfl batch,
    mergeBatch_field _ (fun _ _ => rfl) rfl batch,
    mergeBatch_field _ (fun _ _ => rfl) rfl batch,
    mergeBatch_field _ (fun _ _ => rfl) rfl batch,
    mergeBatch_field _ (fun _ _ => rfl) rfl batch,
    mergeBatch_field _ (fun _ _ => rfl) rfl batch,
    mergeBatch_field _ (fun _ _ => rfl) rfl batch,
    mergeBatch_field _ (fun _ _ => rfl) rfl batch,
    mergeBatch_field _ (fun _ _ => rfl) rfl batch,
    mergeBatch_field _ (fun _ _ => rfl) rfl batch⟩

theorem mergeBatch_append_last {α : Type} (g : PartialState → Option α)
    (hg : ∀ p q, g (mergeTwo p q) = optOr (g q) (g p))
    (h0 : g ({} : PartialState) = none) (l : List PartialState) (p : PartialState) :
    g (mergeBatch (l ++ [p])) = optOr (g p) (lastSet g l) := by
  rw [mergeBatch_field g hg h0]
  simp only [lastSet, List.reverse_append, List.reverse_singleton,
    List.singleton_append, List.findSome?_cons]
  cases g p <;> simp [optOr]

/-- A single `setState` followed by its flush writes through the value of
any state field the partial update names, whatever else is pending: the
later call wins on that field. -/
theorem setStateAndFlush_field {α : Type}
    (gp : PartialState → Option α) (ga : AppState → α)
    (hgm : ∀ p q, gp (mergeTwo p q) = optOr (gp q) (gp p))
    (hg0 : gp ({} : PartialState) = none)
    (happ : ∀ st m, ga (applyPartial st m) = (gp m).getD (ga st))
    (hsel : ∀ st n, ga { st with selectedIndex := n } = ga st)
    (s : Store) (p : PartialState) (v : α) (hp : gp p = some v) :
    ga (setStateAndFlush s p).state = v := by
  have hm : gp (mergeBatch (s.pendingUpdates ++ [p])) = some v := by
    rw [mergeBatch_append_last gp hgm hg0, hp]
    rfl
  show ga (flushBatch (setState s p)).state = v
  simp only [setState, flushBatch]
  split
  · rw [hsel, happ, hm]
    rfl
  · rw [happ, hm]
    rfl

theorem setStateAndFlush_mode (s : Store) (p : PartialState) (v : AppMode)
    (hp : p.mode = some v) : (setStateAndFlush s p).state.mode = v :=
  setStateAndFlush_field (fun q => q.mode) (fun st => st.mode)
    (fun _ _ => rfl) rfl (fun _ _ => rfl) (fun _ _ => rfl) s p v hp

theorem setStateAndFlush_searchQuery (s : Store) (p : PartialState) (v : String)
    (hp : p.searchQuery = some v) : (setStateAndFlush s p).state.searchQuery = v :=
  setStateAndFlush_field (fun q => q.searchQuery) (fun st => st.searchQuery)
    (fun _ _ => rfl) rfl (fun _ _ => rfl) (fun _ _ => rfl) s p v hp

theorem setStateAndFlush_inspectFocus (s : Store) (p : PartialState) (v : InspectFocus)
    (hp : p.inspectFocus = some v) : (setStateAndFlush s p).state.inspectFocus = v :=
  setStateAndFlush_field (fun q => q.inspectFocus) (fun st => st.inspectFocus)
    (fun _ _ => rfl) rfl (fun _ _ => rfl) (fun _ _ => rfl) s p v hp

theorem setStateAndFlush_inspectSearchQuery (s : Store) (p : PartialState) (v : String)
    (hp : p.inspectSearchQuery = some v) :
    (setStateAndFlush s p).state.inspectSearchQuery = v :=
  setStateAndFlush_field (fun q => q.inspectSearchQuery) (fun st => st.inspectSearchQuery)
    (fun _ _ => rfl) rfl (fun _ _ => rfl) (fun _ _ => rfl) s p v hp

theorem setStateAndFlush_inspectSearchMatches (s : Store) (p : PartialState)
    (v : List Nat) (hp : p.inspectSearchMatches = some v) :
    (setStateAndFlush s p).state.inspectSearchMatches = v :=
  setStateAndFlush_field (fun q => q.inspectSearchMatches)
    (fun st => st.inspectSearchMatches)
    (fun _ _ => rfl) rfl (fun _ _ => rfl) (fun _ _ => rfl) s p v hp

theorem setStateAndFlush_inspectSearchIndex (s : Store) (p : PartialState) (v : Int)
    (hp : p.inspectSearchIndex = some v) :
    (setStateAndFlush s p).state.inspectSearchIndex = v :=
  setStateAndFlush_field (fun q => q.inspectSearchIndex) (fun st => st.inspectSearchIndex)
    (fun _ _ => rfl) rfl (fun _ _ => rfl) (fun _ _ => rfl) s p v hp

theorem setStateAndFlush_headersSelectedIndex (s : Store) (p : PartialState) (v : Nat)
    (hp : p.headersSelectedIndex = some v) :
    (setStateAndFlush s p).state.headersSelectedIndex = v :=
  setStateAndFlush_field (fun q => q.headersSelectedIndex)
    (fun st => st.headersSelectedIndex)
    (fun _ _ => rfl) rfl (fun _ _ => rfl) (fun _ _ => rfl) s p v hp

theorem setStateAndFlush_isInspectExpanded (s : Store) (p : PartialState) (v : Bool)
    (hp : p.isInspectExpanded = some v) :
    (setStateAndFlush s p).state.isInspectExpanded = v :=
  setStateAndFlush_field (fun q => q.isInspectExpanded) (fun st => st.isInspectExpanded)
    (fun _ _ => rfl) rfl (fun _ _ => rfl) (fun _ _ => rfl) s p v hp

theorem setStateAndFlush_selectedIndex_some (s : Store) (p : PartialState) (v : Nat)
    (hp : p.selectedIndex = some v) :
    (setStateAndFlush s p).state.selectedIndex = v := by
  have hm : (mergeBatch (s.pendingUpdates ++ [p])).selectedIndex = some v := by
    rw [mergeBatch_append_last (fun q => q.selectedIndex) (fun _ _ => rfl) rfl, hp]
    rfl
  show (flushBatch (setState s p)).state.selectedIndex = v
  simp only [setState, flushBatch, hm]
  simp [applyPartial, hm]

/-- Claim C8: from every non-NORMAL mode, pressing q returns the interpreter
to NORMAL (COPY also on Escape); leaving SEARCH with q clears the search
query, and leaving INSPECT with q resets the focus to HEADERS, clears the
in-panel search query, matches and match index, resets the headers
selection, and closes the full-width view. -/
theorem c8_mode_exits (fuse : List NetworkRequest → String → List NetworkRequest)
    (u : UI) :
    (u.store.state.mode ≠ AppMode.normal →
        (pressKey fuse "q" u).store.state.mode = AppMode.normal)
    ∧ (u.store.state.mode = AppMode.copy →
        (pressKey fuse "Escape" u).store.state.mode = AppMode.normal)
    ∧ (u.store.state.mode = AppMode.search →
        (pressKey fuse "q" u).store.state.searchQuery = "")
    ∧ (u.store.state.mode = AppMode.inspect →
        (pressKey fuse "q" u).store.state.inspectFocus = InspectFocus.headers
        ∧ (pressKey fuse "q" u).store.state.inspectSearchQuery = ""
        ∧ (pressKey fuse "q" u).store.state.inspectSearchMatches = []
        ∧ (pressKey fuse "q" u).store.state.inspectSearchIndex = 0
        ∧ (pressKey fuse "q" u).store.state.headersSelectedIndex = 0
        ∧ (pressKey fuse "q" u).store.state.isInspectExpanded = false) := by
  refine ⟨fun h => ?_, fun h => ?_, fun h => ?_, fun h => ?_⟩
  · cases hm : u.store.state.mode with
    | normal => exact absurd hm h
    | search =>
      simp only [pressKey, hm, handleSearchMode, if_pos rfl]
      exact setStateAndFlush_mode _ _ _ rfl
    | filter =>
      simp only [pressKey, hm, handleFilterMode, if_pos rfl]
      exact setStateAndFlush_mode _ _ _ rfl
    | inspect =>
      simp only [pressKey, hm, handleInspectMode, if_pos rfl]
      exact setStateAndFlush_mode _ _ _ rfl
    | copy =>
      simp only [pressKey, hm, handleCopyMode]
      rw [if_pos (by decide)]
      exact setStateAndFlush_mode _ _ _ rfl
  · simp only [pressKey, h, handleCopyMode]
    rw [if_pos (by decide)]
    exact setStateAndFlush_mode _ _ _ rfl
  · simp only [pressKey, h, handleSearchMode, if_pos rfl]
    exact setStateAndFlush_searchQuery _ _ _ rfl
  · simp only [pressKey, h, handleInspectMode, if_pos rfl]
    exact ⟨setStateAndFlush_inspectFocus _ _ _ rfl,
      setStateAndFlush_inspectSearchQuery _ _ _ rfl,
      setStateAndFlush_inspectSearchMatches _ _ _ rfl,
      setStateAndFlush_inspectSearchIndex _ _ _ rfl,
      setStateAndFlush_headersSelectedIndex _ _ _ rfl,
      setStateAndFlush_isInspectExpanded _ _ _ rfl⟩

/-- Witness for C8 at concrete stores in each non-NORMAL mode. -/
theorem c8_mode_exits_witness :
    (pressKey fuse0 "q"
        { store := { initialStore with state := { initialState with
            mode := AppMode.search, searchQuery := "ab" } },
          keySequence := "" }).store.state.searchQuery = ""
    ∧ (pressKey fuse0 "Escape"
        { store := { initialStore with state := { initialState with
            mode := AppMode.copy } }, keySequence := "" }).store.state.mode
        = AppMode.normal
    ∧ (pressKey fuse0 "q"
        { store := { initialStore with state := { initialState with
            mode := AppMode.inspect, isInspectExpanded := true } },
          keySequence := "" }).store.state.isInspectExpanded = false := by
  refine ⟨(c8_mode_exits fuse0 _).2.2.1 rfl, (c8_mode_exits fuse0 _).2.1 rfl,
    ((c8_mode_exits fuse0 _).2.2.2 rfl).2.2.2.2.2⟩

/-- Counterexample to claim C6: `getState` spreads only the top level, so
the snapshot's `requests` field is the store's live array; pushing on it
through the snapshot's reference changes the store's internal state.  (The
capture pipeline depends on this sharing: `handleResponseReceived` mutates
records it finds through a `getState` snapshot.) -/
theorem c6_counterexample :
    (pushThroughRef (addRequest initialStore rXhr)
        (getState (addRequest initialStore rXhr)).requestsRef rJs).state.requests
      ≠ (addRequest initialStore rXhr).state.requests := by
  decide

/-- Claim C6 (amended): `getState` returns a fresh top-level record carrying
the current state values, but it is a shallow copy — its nested `requests`
reference is the store's own live array, so a mutation through the
snapshot's reference lands in the store, while the same mutation through
any other (deep-copied) reference would leave the store untouched. -/
theorem c6_shallow_snapshot (s : Store) (r : NetworkRequest) (t : Nat) :
    (getState s).data = s.state
    ∧ (getState s).requestsRef = s.requestsTag
    ∧ (pushThroughRef s (getState s).requestsRef r).state.requests
        = s.state.requests ++ [r]
    ∧ (t ≠ s.requestsTag → pushThroughRef s t r = s) := by
  refine ⟨rfl, rfl, ?_, fun h => ?_⟩
  · simp [pushThroughRef, getState]
  · simp [pushThroughRef, h]

/-- Witness for C6 at a concrete store and a reference that is not the live
array. -/
theorem c6_shallow_snapshot_witness :
    (pushThroughRef (addRequest initialStore rXhr)
        (getState (addRequest initialStore rXhr)).requestsRef rJs).state.requests
      = (addRequest initialStore rXhr).state.requests ++ [rJs]
    ∧ pushThroughRef (addRequest initialStore rXhr) 77 rJs
        = addRequest initialStore rXhr := by
  exact ⟨(c6_shallow_snapshot (addRequest initialStore rXhr) rJs 77).2.2.1,
    (c6_shallow_snapshot (addRequest initialStore rXhr) rJs 77).2.2.2 (by decide)⟩

/-- Claim C9: a `Document` initiated event for the tracked main frame (or
arriving while none is tracked) records the frame id, clears the in-flight
caches and all requests, and inserts the fresh request as the sole entry; a
`Document` event for any other frame, and any non-`Document` event, clears
nothing and appends exactly one request. -/
theorem c9_navigation_clearing (en : String → String) (p : InitiatedParams)
    (c : Capture) :
    (p.rawType = "Document" →
      (c.mainFrameId = none ∨ c.mainFrameId = some p.frameId) →
        (handleRequestWillBeSent en p c).store.state.requests = [mkRequest en p]
        ∧ (handleRequestWillBeSent en p c).mainFrameId = some p.frameId
        ∧ (handleRequestWillBeSent en p c).pendingRequests
            = [(p.requestId, mkRequest en p)]
        ∧ (handleRequestWillBeSent en p c).responseBodyCache = []
        ∧ (handleRequestWillBeSent en p c).fetchingBodies = []
        ∧ (handleRequestWillBeSent en p c).store.state.selectedIndex = 0)
    ∧ ((p.rawType = "Document" → ∃ f, c.mainFrameId = some f ∧ f ≠ p.frameId) →
      c.store.state.requests.length < 1000 →
        (handleRequestWillBeSent en p c).store.state.requests
            = c.store.state.requests ++ [mkRequest en p]
        ∧ (handleRequestWillBeSent en p c).mainFrameId = c.mainFrameId
        ∧ (handleRequestWillBeSent en p c).responseBodyCache = c.responseBodyCache
        ∧ (handleRequestWillBeSent en p c).fetchingBodies = c.fetchingBodies
        ∧ (handleRequestWillBeSent en p c).store.state.selectedIndex
            = c.store.state.selectedIndex) := by
  constructor
  · intro hdoc hframe
    have hcond : (p.rawType = "Document"
        && (c.mainFrameId.isNone || c.mainFrameId == some p.frameId)) = true := by
      rcases hframe with h | h <;> simp [hdoc, h]
    simp [handleRequestWillBeSent, hcond, clearCaches, clearRequests, addRequest,
      assocSet]
  · intro hother hlen
    have hcond : (p.rawType = "Document"
        && (c.mainFrameId.isNone || c.mainFrameId == some p.frameId)) = false := by
      by_cases hdoc : p.rawType = "Document"
      · obtain ⟨f, hf, hne⟩ := hother hdoc
        simp [hf, hne]
      · simp [hdoc]
    have hpush : ¬ (1000 < c.store.state.requests.length + 1) := by omega
    simp [handleRequestWillBeSent, hcond, addRequest, hpush]

/-- Witness for C9: a concrete main-frame reload clearing five requests
down to a sole entry, and a concrete subframe `Document` event appending a
sixth. -/
theorem c9_navigation_clearing_witness :
    (handleRequestWillBeSent en0
        { requestId := "r9", frameId := "F", rawType := "Document",
          url := "https://e.com/", method := "GET", timestamp := 0,
          headers := [], postData := none, initiator := none }
        { store := addRequest (addRequest initialStore rXhr) rJs,
          pendingRequests := [("a", rXhr)], responseBodyCache := [("a", "x")],
          fetchingBodies := ["a"], mainFrameId := some "F" }).store.state.requests
      = [mkRequest en0
          { requestId := "r9", frameId := "F", rawType := "Document",
            url := "https://e.com/", method := "GET", timestamp := 0,
            headers := [], postData := none, initiator := none }]
    ∧ (handleRequestWillBeSent en0
        { requestId := "r9", frameId := "G", rawType := "Document",
          url := "https://e.com/", method := "GET", timestamp := 0,
          headers := [], postData := none, initiator := none }
        { store := addRequest (addRequest initialStore rXhr) rJs,
          pendingRequests := [("a", rXhr)], responseBodyCache := [("a", "x")],
          fetchingBodies := ["a"], mainFrameId := some "F" }).store.state.requests
      = (addRequest (addRequest initialStore rXhr) rJs).state.requests
          ++ [mkRequest en0
            { requestId := "r9", frameId := "G", rawType := "Document",
              url := "https://e.com/", method := "GET", timestamp := 0,
              headers := [], postData := none, initiator := none }] := by
  constructor
  · exact ((c9_navigation_clearing en0 _ _).1 rfl (Or.inr rfl)).1
  · exact ((c9_navigation_clearing en0 _ _).2
      (fun _ => ⟨"F", rfl, by decide⟩) (by decide)).1

theorem handleRequestWillBeSent_notify_nondoc (en : String → String)
    (p : InitiatedParams) (c : Capture) (hp : p.rawType ≠ "Document") :
    (handleRequestWillBeSent en p c).store.notifyCount
      = c.store.notifyCount + 1 := by
  have hcond : (p.rawType = "Document"
      && (c.mainFrameId.isNone || c.mainFrameId == some p.frameId)) = false := by
    simp [hp]
  simp only [handleRequestWillBeSent, hcond, Bool.false_eq_true, if_false]
  simp only [addRequest]
  split <;> rfl

theorem runInitiated_notify (en : String → String) (ps : List InitiatedParams) :
    ∀ c : Capture, (∀ p ∈ ps, p.rawType ≠ "Document") →
      (runInitiated en ps c).store.notifyCount = c.store.notifyCount + ps.length := by
  induction ps with
  | nil => intro c _; simp [runInitiated]
  | cons p ps ih =>
    intro c hps
    have h1 := handleRequestWillBeSent_notify_nondoc en p c
      (hps p (List.mem_cons_self p ps))
    have h2 := ih (handleRequestWillBeSent en p c)
      (fun q hq => hps q (List.mem_cons_of_mem p hq))
    simp only [runInitiated, List.foldl_cons, List.length_cons] at h2 ⊢
    rw [h2, h1]
    omega

/-- Counterexample to claim C10: a single main-frame `Document` initiated
event (N = 1) produces two subscriber notifications, not one — one from
`clearRequests` and one from `addRequest`. -/
theorem c10_counterexample :
    (handleRequestWillBeSent en0
        { requestId := "r1", frameId := "F", rawType := "Document",
          url := "https://e.com/", method := "GET", timestamp := 0,
          headers := [], postData := none, initiator := none }
        initialCapture).store.notifyCount = 2
    ∧ (handleRequestWillBeSent en0
        { requestId := "r1", frameId := "F", rawType := "Document",
          url := "https://e.com/", method := "GET", timestamp := 0,
          headers := [], postData := none, initiator := none }
        initialCapture).store.notifyCount ≠ initialCapture.store.notifyCount + 1 := by
  decide

/-- Claim C10 (amended): `addRequest`, `deleteRequest` and `clearRequests`
each notify subscribers synchronously, exactly once per call, without
touching the per-tick `setState` queue (their mutations take effect
immediately rather than being merged into the pending batch); consequently
N initiated capture events within one tick produce one notification per
store mutation they perform: exactly N when none of them is a clearing
main-frame `Document` event, and one extra per clearing event. -/
theorem c10_sync_notifications (s : Store) (r : NetworkRequest) (i : Nat)
    (en : String → String) (ps : List InitiatedParams) (c : Capture)
    (hps : ∀ p ∈ ps, p.rawType ≠ "Document") :
    ((addRequest s r).notifyCount = s.notifyCount + 1
      ∧ (addRequest s r).pendingUpdates = s.pendingUpdates)
    ∧ ((deleteRequest s i).notifyCount = s.notifyCount + 1
      ∧ (deleteRequest s i).pendingUpdates = s.pendingUpdates)
    ∧ ((clearRequests s).notifyCount = s.notifyCount + 1
      ∧ (clearRequests s).pendingUpdates = s.pendingUpdates)
    ∧ (runInitiated en ps c).store.notifyCount = c.store.notifyCount + ps.length := by
  refine ⟨⟨?_, ?_⟩, ⟨rfl, rfl⟩, ⟨rfl, rfl⟩, runInitiated_notify en ps c hps⟩
  · simp only [addRequest]; split <;> rfl
  · simp only [addRequest]; split <;> rfl

/-- Witness for C10 at a concrete burst of two non-document events. -/
theorem c10_sync_notifications_witness :
    (addRequest initialStore rXhr).notifyCount = initialStore.notifyCount + 1
    ∧ (runInitiated en0
        [{ requestId := "x1", frameId := "F", rawType := "Fetch",
           url := "https://e.com/1", method := "GET", timestamp := 0,
           headers := [], postData := none, initiator := none },
         { requestId := "x2", frameId := "F", rawType := "Script",
           url := "https://e.com/2", method := "GET", timestamp := 0,
           headers := [], postData := none, initiator := none }]
        initialCapture).store.notifyCount
      = initialCapture.store.notifyCount + 2 := by
  have h := c10_sync_notifications initialStore rXhr 0 en0
    [{ requestId := "x1", frameId := "F", rawType := "Fetch",
       url := "https://e.com/1", method := "GET", timestamp := 0,
       headers := [], postData := none, initiator := none },
     { requestId := "x2", frameId := "F", rawType := "Script",
       url := "https://e.com/2", method := "GET", timestamp := 0,
       headers := [], postData := none, initiator := none }]
    initialCapture (by intro p hp; fin_cases hp <;> decide)
  exact ⟨h.1.1, h.2.2.2⟩

theorem flushBatch_invalidate (s : Store) (p : PartialState)
    (h0 : s.pendingUpdates = [])
    (hq : p.searchQuery.isSome ∨ p.filters.isSome) :
    (flushBatch (setState s p)).cache.requests = none
    ∧ (flushBatch (setState s p)).fuseIndex = none := by
  have hcond : (p.searchQuery.isSome || p.filters.isSome) = true := by
    rcases hq with h | h <;> simp [h]
  simp [setState, h0, flushBatch, mergeBatch_singleton, hcond]

theorem getFiltered_fresh (fuse : List NetworkRequest → String → List NetworkRequest)
    (s : Store) (hc : s.cache.requests = none) (hf : s.fuseIndex = none) :
    (getFilteredRequests fuse s).result = pureFilteredRequests fuse s.state := by
  have hv : filterCacheValid s = false := by simp [filterCacheValid, hc]
  simp [getFilteredRequests, hv, computeFiltered, hf, pureFilteredRequests]

theorem getFiltered_cache_hit (fuse : List NetworkRequest → String → List NetworkRequest)
    (s : Store) (hv : filterCacheValid s = true) :
    getFilteredRequests fuse s
      = { resultTag := (s.cache.requests.getD (0, [])).1,
          result := (s.cache.requests.getD (0, [])).2, store := s } := by
  simp [getFilteredRequests, hv]

theorem getFiltered_store_after (fuse : List NetworkRequest → String → List NetworkRequest)
    (s : Store) :
    (getFilteredRequests fuse s).store.cache.requests
        = some ((getFilteredRequests fuse s).resultTag, (getFilteredRequests fuse s).result)
    ∧ filterCacheValid (getFilteredRequests fuse s).store = true
    ∧ (getFilteredRequests fuse s).store.state = s.state
    ∧ (getFilteredRequests fuse s).store.pendingUpdates = s.pendingUpdates := by
  by_cases hv : filterCacheValid s = true
  · rw [getFiltered_cache_hit fuse s hv]
    have hsome : s.cache.requests.isSome = true := by
      simp only [filterCacheValid, Bool.and_eq_true] at hv
      exact hv.1.1.1
    cases hcr : s.cache.requests with
    | none => rw [hcr] at hsome; simp at hsome
    | some cr => exact ⟨by simp [hcr], hv, rfl, rfl⟩
  · have hv2 : filterCacheValid s = false := by
      cases h : filterCacheValid s
      · rfl
      · exact absurd h hv
    simp only [getFilteredRequests, hv2, Bool.false_eq_true, if_false]
    refine ⟨rfl, ?_, rfl, rfl⟩
    simp [computeFiltered, filterCacheValid]

theorem filterCacheValid_congr (s1 s2 : Store) (hc : s2.cache = s1.cache)
    (hr : s2.state.requests = s1.state.requests)
    (hq : s2.state.searchQuery = s1.state.searchQuery)
    (hf : s2.state.filters = s1.state.filters) :
    filterCacheValid s2 = filterCacheValid s1 := by
  simp [filterCacheValid, hc, hr, hq, hf]

theorem flushBatch_no_invalidate (s : Store) (p : PartialState)
    (h0 : s.pendingUpdates = []) (hq : p.searchQuery = none)
    (hf : p.filters = none) (hr : p.requests = none) :
    (flushBatch (setState s p)).cache = s.cache
    ∧ (flushBatch (setState s p)).fuseIndex = s.fuseIndex
    ∧ (flushBatch (setState s p)).state.requests = s.state.requests
    ∧ (flushBatch (setState s p)).state.searchQuery = s.state.searchQuery
    ∧ (flushBatch (setState s p)).state.filters = s.state.filters := by
  simp [setState, h0, flushBatch, mergeBatch_singleton, hq, hf, hr, applyPartial]

/-- Counterexample to claim C2: the memo key compares the request count and
the filter-set size, not the contents; replacing the single stored request
by a different one of equal count through a `setState` that does not touch
`searchQuery` or `filters` leaves the cache key unchanged, and
`getFilteredRequests` serves the stale previous view instead of the pure
function of the current state. -/
theorem c2_counterexample :
    (getFilteredRequests fuse0
        (flushBatch (setState (getFilteredRequests fuse0
          (addRequest initialStore rXhr)).store { requests := some [rJs] }))).result
      = [rXhr]
    ∧ pureFilteredRequests fuse0
        (flushBatch (setState (getFilteredRequests fuse0
          (addRequest initialStore rXhr)).store { requests := some [rJs] })).state
      = [rJs]
    ∧ (getFilteredRequests fuse0
        (flushBatch (setState (getFilteredRequests fuse0
          (addRequest initialStore rXhr)).store { requests := some [rJs] }))).result
      ≠ pureFilteredRequests fuse0
        (flushBatch (setState (getFilteredRequests fuse0
          (addRequest initialStore rXhr)).store { requests := some [rJs] })).state := by
  decide

/-- Claim C2 (amended): whenever its caches have been invalidated — as any
`setState` batch naming `searchQuery` or `filters` does — the next
`getFilteredRequests` call returns exactly the pure pipeline (fuzzy match
over url/name when the query is non-empty, then resource-type filtering
when the filter set is non-empty) of the current (requests, searchQuery,
filter set); and it recomputes nothing on a hit of its memo key (request
count, searchQuery, filter-set size), returning the stored view and leaving
the manager untouched.  Because the key uses count and size instead of
contents, a requests replacement at equal count that touches neither
`searchQuery` nor `filters` can serve a stale view. -/
theorem c2_filtered_view (fuse : List NetworkRequest → String → List NetworkRequest)
    (s : Store) (p : PartialState) (h0 : s.pendingUpdates = []) :
    (s.cache.requests = none → s.fuseIndex = none →
        (getFilteredRequests fuse s).result = pureFilteredRequests fuse s.state)
    ∧ ((p.searchQuery.isSome ∨ p.filters.isSome) →
        (getFilteredRequests fuse (flushBatch (setState s p))).result
          = pureFilteredRequests fuse (flushBatch (setState s p)).state)
    ∧ (filterCacheValid s = true →
        (getFilteredRequests fuse s).store = s
        ∧ s.cache.requests = some ((getFilteredRequests fuse s).resultTag,
            (getFilteredRequests fuse s).result)) := by
  refine ⟨fun hc hf => getFiltered_fresh fuse s hc hf, fun hq => ?_, fun hv => ?_⟩
  · obtain ⟨hc, hf⟩ := flushBatch_invalidate s p h0 hq
    exact getFiltered_fresh fuse _ hc hf
  · rw [getFiltered_cache_hit fuse s hv]
    have hsome : s.cache.requests.isSome = true := by
      simp only [filterCacheValid, Bool.and_eq_true] at hv
      exact hv.1.1.1
    cases hcr : s.cache.requests with
    | none => rw [hcr] at hsome; simp at hsome
    | some cr => exact ⟨rfl, by simp [hcr]⟩

/-- Witness for C2: the fresh store satisfies the invalidated-cache
hypotheses, a concrete searchQuery flush is never stale, and the store
right after a first computation is a cache hit. -/
theorem c2_filtered_view_witness :
    (getFilteredRequests fuse0 initialStore).result
        = pureFilteredRequests fuse0 initialStore.state
    ∧ (getFilteredRequests fuse0
          (flushBatch (setState initialStore { searchQuery := some "x" }))).result
        = pureFilteredRequests fuse0
            (flushBatch (setState initialStore { searchQuery := some "x" })).state
    ∧ (getFilteredRequests fuse0
          (getFilteredRequests fuse0 initialStore).store).store
        = (getFilteredRequests fuse0 initialStore).store := by
  refine ⟨(c2_filtered_view fuse0 initialStore {} rfl).1 rfl rfl,
    (c2_filtered_view fuse0 initialStore { searchQuery := some "x" } rfl).2.1
      (Or.inl rfl), ?_⟩
  exact ((c2_filtered_view fuse0 (getFilteredRequests fuse0 initialStore).store {}
    (by decide)).2.2 (by decide)).1

/-- Counterexample to claim C3: with one xhr request stored and the xhr
filter active, a flushed `setState` that re-submits the unchanged filter
set leaves requests, searchQuery and the filter set all unchanged between
two `getFilteredRequests` calls, yet the second call recomputes and
allocates a fresh array: equal contents, different instance (tags
differ). -/
theorem c3_counterexample :
    (getFilteredRequests fuse0
        (flushBatch (setState (getFilteredRequests fuse0 (toggleSingleTypeFilter
            (addRequest initialStore rXhr) ResourceType.xhr true)).store
          { filters := some (getFilteredRequests fuse0 (toggleSingleTypeFilter
              (addRequest initialStore rXhr) ResourceType.xhr
              true)).store.state.filters }))).result
      = (getFilteredRequests fuse0 (toggleSingleTypeFilter
          (addRequest initialStore rXhr) ResourceType.xhr true)).result
    ∧ (flushBatch (setState (getFilteredRequests fuse0 (toggleSingleTypeFilter
          (addRequest initialStore rXhr) ResourceType.xhr true)).store
        { filters := some (getFilteredRequests fuse0 (toggleSingleTypeFilter
            (addRequest initialStore rXhr) ResourceType.xhr
            true)).store.state.filters })).state.requests
      = (getFilteredRequests fuse0 (toggleSingleTypeFilter
          (addRequest initialStore rXhr) ResourceType.xhr true)).store.state.requests
    ∧ (flushBatch (setState (getFilteredRequests fuse0 (toggleSingleTypeFilter
          (addRequest initialStore rXhr) ResourceType.xhr true)).store
        { filters := some (getFilteredRequests fuse0 (toggleSingleTypeFilter
            (addRequest initialStore rXhr) ResourceType.xhr
            true)).store.state.filters })).state.searchQuery
      = (getFilteredRequests fuse0 (toggleSingleTypeFilter
          (addRequest initialStore rXhr) ResourceType.xhr true)).store.state.searchQuery
    ∧ (flushBatch (setState (getFilteredRequests fuse0 (toggleSingleTypeFilter
          (addRequest initialStore rXhr) ResourceType.xhr true)).store
        { filters := some (getFilteredRequests fuse0 (toggleSingleTypeFilter
            (addRequest initialStore rXhr) ResourceType.xhr
            true)).store.state.filters })).state.filters
      = (getFilteredRequests fuse0 (toggleSingleTypeFilter
          (addRequest initialStore rXhr) ResourceType.xhr true)).store.state.filters
    ∧ (getFilteredRequests fuse0
        (flushBatch (setState (getFilteredRequests fuse0 (toggleSingleTypeFilter
            (addRequest initialStore rXhr) ResourceType.xhr true)).store
          { filters := some (getFilteredRequests fuse0 (toggleSingleTypeFilter
              (addRequest initialStore rXhr) ResourceType.xhr
              true)).store.state.filters }))).resultTag
      ≠ (getFilteredRequests fuse0 (toggleSingleTypeFilter
          (addRequest initialStore rXhr) ResourceType.xhr true)).resultTag := by
  decide

/-- Claim C3 (amended): `getFilteredRequests` is referentially stable —
returning the very array instance of the previous call — across any
interval in which requests, searchQuery and the filter set are unchanged
and no `setState` batch naming `searchQuery`, `filters` or `requests` was
flushed; in particular across an immediately repeated call, and across
flushes touching only unrelated fields.  (A flushed update that re-submits
even an unchanged filter set invalidates the cache and breaks instance
stability, as the counterexample shows.) -/
theorem c3_referential_stability
    (fuse : List NetworkRequest → String → List NetworkRequest)
    (s : Store) (p : PartialState) (h0 : s.pendingUpdates = [])
    (hq : p.searchQuery = none) (hf : p.filters = none) (hr : p.requests = none) :
    (getFilteredRequests fuse (getFilteredRequests fuse s).store).resultTag
        = (getFilteredRequests fuse s).resultTag
    ∧ (getFilteredRequests fuse (getFilteredRequests fuse s).store).result
        = (getFilteredRequests fuse s).result
    ∧ (getFilteredRequests fuse
          (flushBatch (setState (getFilteredRequests fuse s).store p))).resultTag
        = (getFilteredRequests fuse s).resultTag
    ∧ (getFilteredRequests fuse
          (flushBatch (setState (getFilteredRequests fuse s).store p))).result
        = (getFilteredRequests fuse s).result := by
  obtain ⟨hcache, hvalid, hstate, hpend⟩ := getFiltered_store_after fuse s
  have hhit := getFiltered_cache_hit fuse _ hvalid
  have h12 : (getFilteredRequests fuse (getFilteredRequests fuse s).store).resultTag
        = (getFilteredRequests fuse s).resultTag
      ∧ (getFilteredRequests fuse (getFilteredRequests fuse s).store).result
        = (getFilteredRequests fuse s).result := by
    rw [hhit]
    simp [hcache]
  have hpend0 : (getFilteredRequests fuse s).store.pendingUpdates = [] := by
    rw [hpend, h0]
  obtain ⟨hc2, hf2, hr2, hq2, hfl2⟩ :=
    flushBatch_no_invalidate (getFilteredRequests fuse s).store p hpend0 hq hf hr
  have hvalid2 : filterCacheValid
      (flushBatch (setState (getFilteredRequests fuse s).store p)) = true := by
    rw [filterCacheValid_congr (getFilteredRequests fuse s).store _ hc2 hr2 hq2
      (by rw [hfl2])]
    exact hvalid
  have hhit2 := getFiltered_cache_hit fuse _ hvalid2
  rw [hhit2]
  refine ⟨h12.1, h12.2, ?_, ?_⟩ <;> simp [hc2, hcache]

/-- Witness for C3 at the fresh store and a flush touching only the mode. -/
theorem c3_referential_stability_witness :
    (getFilteredRequests fuse0 (getFilteredRequests fuse0 initialStore).store).result
        = (getFilteredRequests fuse0 initialStore).result
    ∧ (getFilteredRequests fuse0
          (flushBatch (setState (getFilteredRequests fuse0 initialStore).store
            { mode := some AppMode.search }))).resultTag
        = (getFilteredRequests fuse0 initialStore).resultTag := by
  exact ⟨(c3_referential_stability fuse0 initialStore { mode := some AppMode.search }
      rfl rfl rfl rfl).2.1,
    (c3_referential_stability fuse0 initialStore { mode := some AppMode.search }
      rfl rfl rfl rfl).2.2.1⟩

/-- Counterexample to claim C4: with one request stored and the Fuse index
freshly built (one build), a flushed search-query change at unchanged
request count nulls the index, and the next search rebuilds it (two
builds): the index is rebuilt although the request count never changed. -/
theorem c4_counterexample :
    (flushBatch (setState (getFilteredRequests fuse0
          (addRequest initialStore rXhr)).store
        { searchQuery := some "ab" })).state.requests.length
      = (getFilteredRequests fuse0 (addRequest initialStore rXhr)).store.state.requests.length
    ∧ (getFilteredRequests fuse0 (addRequest initialStore rXhr)).store.fuseBuildCount = 1
    ∧ (getFilteredRequests fuse0
        (flushBatch (setState (getFilteredRequests fuse0
            (addRequest initialStore rXhr)).store
          { searchQuery := some "ab" }))).store.fuseBuildCount = 2 := by
  decide

/-- Claim C4 (amended): inside `getFilteredRequests`, the Fuse index is
rebuilt exactly when the memo key misses and the index is either absent or
was built for a different request count; but every flushed `setState`
naming `searchQuery` or `filters` nulls the index, so a search-query
keystroke does cause a rebuild at the next search even at unchanged request
count.  (Only between such invalidations do repeated searches at constant
count reuse the index.) -/
theorem c4_fuse_rebuild (fuse : List NetworkRequest → String → List NetworkRequest)
    (s : Store) (p : PartialState) (h0 : s.pendingUpdates = []) :
    ((getFilteredRequests fuse s).store.fuseBuildCount ≠ s.fuseBuildCount
      ↔ (filterCacheValid s = false
          ∧ (s.fuseIndex = none ∨ s.lastFuseIndexLength ≠ s.state.requests.length)))
    ∧ ((p.searchQuery.isSome ∨ p.filters.isSome) →
        (flushBatch (setState s p)).fuseIndex = none) := by
  constructor
  · by_cases hv : filterCacheValid s = true
    · rw [getFiltered_cache_hit fuse s hv]
      simp [hv]
    · have hv2 : filterCacheValid s = false := by
        cases h : filterCacheValid s
        · rfl
        · exact absurd h hv
      have hcount : (getFilteredRequests fuse s).store.fuseBuildCount
          = if s.fuseIndex.isNone || (s.lastFuseIndexLength != s.state.requests.length)
            then s.fuseBuildCount + 1 else s.fuseBuildCount := by
        simp only [getFilteredRequests, hv2, Bool.false_eq_true, if_false]
        rfl
      rw [hcount]
      by_cases hrb : (s.fuseIndex.isNone
          || (s.lastFuseIndexLength != s.state.requests.length)) = true
      · rw [if_pos hrb]
        simp only [Bool.or_eq_true, Option.isNone_iff_eq_none, bne_iff_ne] at hrb
        simp [hv2, hrb]
      · have hrb2 : (s.fuseIndex.isNone
            || (s.lastFuseIndexLength != s.state.requests.length)) = false := by
          cases h : (s.fuseIndex.isNone
              || (s.lastFuseIndexLength != s.state.requests.length))
          · rfl
          · exact absurd h hrb
        rw [if_neg (by rw [hrb2]; exact Bool.false_ne_true)]
        simp only [Bool.or_eq_false_iff, Option.isNone_eq_false_iff,
          bne_eq_false_iff_eq] at hrb2
        simp only [ne_eq, not_true_eq_false, false_iff, not_and, not_or]
        intro _
        constructor
        · intro hnone
          rw [hnone] at hrb2
          simp [Option.isSome_none] at hrb2
        · intro hne
          exact hne hrb2.2
  · intro hq
    exact (flushBatch_invalidate s p h0 hq).2

/-- Witness for C4: the rebuild criterion at the fresh store, and a
concrete search-query flush nulling the index. -/
theorem c4_fuse_rebuild_witness :
    ((getFilteredRequests fuse0 initialStore).store.fuseBuildCount
        ≠ initialStore.fuseBuildCount
      ↔ (filterCacheValid initialStore = false
          ∧ (initialStore.fuseIndex = none
              ∨ initialStore.lastFuseIndexLength
                  ≠ initialStore.state.requests.length)))
    ∧ (flushBatch (setState initialStore { searchQuery := some "x" })).fuseIndex
        = none := by
  exact ⟨(c4_fuse_rebuild fuse0 initialStore { searchQuery := some "x" } rfl).1,
    (c4_fuse_rebuild fuse0 initialStore { searchQuery := some "x" } rfl).2
      (Or.inl rfl)⟩

theorem moveSelectionIndex_le (sel : Nat) (delta : Int) (len : Nat) :
    moveSelectionIndex sel delta len ≤ len - 1 := by
  simp only [moveSelectionIndex]
  omega

theorem pressKey_move_selectedIndex
    (fuse : List NetworkRequest → String → List NetworkRequest) (u : UI)
    (key : String) (delta : Int) (h : u.store.state.mode = AppMode.normal)
    (hkey : (key = "j" ∧ delta = 1) ∨ (key = "k" ∧ delta = -1)) :
    (pressKey fuse key u).store.state.selectedIndex
      = moveSelectionIndex (getFilteredRequests fuse u.store).store.state.selectedIndex
          delta (getFilteredRequests fuse u.store).result.length := by
  rcases hkey with ⟨hk, hd⟩ | ⟨hk, hd⟩ <;> subst hk <;> subst hd <;>
    simp only [pressKey, h, handleNormalMode, reduceIte] <;>
    exact setStateAndFlush_selectedIndex_some _ _ _ rfl

/-- Counterexample to claim C7: starting from the fresh store, capture an
xhr and a script request, move the selection to row 1, then activate the
xhr-only filter.  The filtered view narrows to a single row but
`selectedIndex` is not re-clamped: it stays 1, outside
`[0, filteredView.length - 1] = [0, 0]` — the invariant fails on a
reachable state after a filter-set change. -/
theorem c7_counterexample :
    (toggleSingleTypeFilter (pressKey fuse0 "j"
        { store := addRequest (addRequest initialStore rXhr) rJs,
          keySequence := "" }).store
      ResourceType.xhr true).state.selectedIndex = 1
    ∧ (getFilteredRequests fuse0 (toggleSingleTypeFilter (pressKey fuse0 "j"
        { store := addRequest (addRequest initialStore rXhr) rJs,
          keySequence := "" }).store
      ResourceType.xhr true)).result.length = 1
    ∧ ¬ ((toggleSingleTypeFilter (pressKey fuse0 "j"
          { store := addRequest (addRequest initialStore rXhr) rJs,
            keySequence := "" }).store
        ResourceType.xhr true).state.selectedIndex
          ≤ (getFilteredRequests fuse0 (toggleSingleTypeFilter (pressKey fuse0 "j"
              { store := addRequest (addRequest initialStore rXhr) rJs,
                keySequence := "" }).store
            ResourceType.xhr true)).result.length - 1) := by
  decide

/-- Claim C7 (amended): `selectedIndex` is clamped into
`[0, filteredView.length - 1]` (0 when the view is empty) by the j/k
movement commands, reset to 0 by every flushed `setState` batch that names
`searchQuery` without naming `selectedIndex`, and clamped against the full
remaining collection by `deleteRequest`; it is NOT re-clamped on filter-set
changes, so after the filter set narrows the view it can exceed the
filtered view's bounds (see the counterexample). -/
theorem c7_selection_clamping
    (fuse : List NetworkRequest → String → List NetworkRequest) (u : UI)
    (s : Store) (p : PartialState) (i : Nat) (h0 : s.pendingUpdates = []) :
    (u.store.state.mode = AppMode.normal →
        (pressKey fuse "j" u).store.state.selectedIndex
          ≤ (getFilteredRequests fuse u.store).result.length - 1)
    ∧ (u.store.state.mode = AppMode.normal →
        (pressKey fuse "k" u).store.state.selectedIndex
          ≤ (getFilteredRequests fuse u.store).result.length - 1)
    ∧ (p.searchQuery.isSome → p.selectedIndex = none →
        (flushBatch (setState s p)).state.selectedIndex = 0)
    ∧ (deleteRequest s i).state.selectedIndex
        ≤ (deleteRequest s i).state.requests.length - 1 := by
  refine ⟨fun h => ?_, fun h => ?_, fun hq hsel => ?_, ?_⟩
  · rw [pressKey_move_selectedIndex fuse u "j" 1 h (Or.inl ⟨rfl, rfl⟩)]
    exact moveSelectionIndex_le _ _ _
  · rw [pressKey_move_selectedIndex fuse u "k" (-1) h (Or.inr ⟨rfl, rfl⟩)]
    exact moveSelectionIndex_le _ _ _
  · have hcond : ((p.searchQuery.isSome : Bool) && p.selectedIndex.isNone) = true := by
      simp [hq, hsel]
    simp [setState, h0, flushBatch, mergeBatch_singleton, hcond]
  · simp only [deleteRequest]
    split
    · omega
    · rename_i hlt
      omega

/-- Witness for C7 at concrete inputs: a j press over two requests, a
search-query flush, and a deletion. -/
theorem c7_selection_clamping_witness :
    (pressKey fuse0 "j"
        { store := addRequest (addRequest initialStore rXhr) rJs,
          keySequence := "" }).store.state.selectedIndex
      ≤ (getFilteredRequests fuse0
          (addRequest (addRequest initialStore rXhr) rJs)).result.length - 1
    ∧ (flushBatch (setState (addRequest initialStore rXhr)
        { searchQuery := some "x" })).state.selectedIndex = 0
    ∧ (deleteRequest (addRequest initialStore rXhr) 0).state.selectedIndex
        ≤ (deleteRequest (addRequest initialStore rXhr) 0).state.requests.length - 1 := by
  refine ⟨(c7_selection_clamping fuse0
      { store := addRequest (addRequest initialStore rXhr) rJs, keySequence := "" }
      (addRequest initialStore rXhr) { searchQuery := some "x" } 0 rfl).1 rfl,
    (c7_selection_clamping fuse0
      { store := addRequest (addRequest initialStore rXhr) rJs, keySequence := "" }
      (addRequest initialStore rXhr) { searchQuery := some "x" } 0 rfl).2.2.1 rfl rfl,
    (c7_selection_clamping fuse0
      { store := addRequest (addRequest initialStore rXhr) rJs, keySequence := "" }
      (addRequest initialStore rXhr) { searchQuery := some "x" } 0 rfl).2.2.2⟩

end ViNetwork
